import Mathlib

set_option maxRecDepth 10000

/-! Verification of the azure-ai-chatbot repository.

Shallow embedding of `main_app/chat_app.py`, `main_app/data_upload.py` and
`main_app/data_download.py`.  Python strings are modelled as `List Char`;
external services (filesystem, pandas, PyPDF2, FAISS, the LLM chain, the Azure
blob SDK) are modelled as oracle records (`World`, `AzureWorld`) whose fields
return `Except` values: `.error` models a raised exception, `.ok` a normal
return.  The in-repository control flow (extension dispatch, try/except
structure, string formatting, the text splitter, session-state updates and
return values) is translated directly from the source. -/

/-- Character-list model of a Python string built from a Lean string literal. -/
def chars (s : String) : List Char := s.data

/-- Python os.path.basename for POSIX paths: everything after the last slash. -/
def pyBasename (p : List Char) : List Char :=
  (p.reverse.takeWhile (fun c => c ≠ '/')).reverse

/-- Extension part of genericpath._splitext, applied to a basename: the suffix
from the last dot, provided some character strictly before that dot in the
basename is not itself a dot (so ".bashrc" has no extension). -/
def extOfBase (base : List Char) : List Char :=
  let rev := base.reverse
  let extRev := rev.takeWhile (fun c => c ≠ '.')
  if extRev.length = base.length then []
  else
    let preRev := rev.drop (extRev.length + 1)
    if preRev.any (fun c => c ≠ '.') then '.' :: extRev.reverse else []

/-- Python os.path.splitext(p)[1]: the last dot of the whole path is relevant
only when it lies inside the basename, so this factors through `pyBasename`. -/
def splitextExt (p : List Char) : List Char := extOfBase (pyBasename p)

/-- ASCII lowering of one character, the fragment of str.lower relevant to the
ASCII file extensions the dispatcher compares against. -/
def lowerChar (c : Char) : Char :=
  if 'A' ≤ c ∧ c ≤ 'Z' then Char.ofNat (c.toNat + 32) else c

/-- ASCII lowering of a character list (str.lower on the model). -/
def lowerList (l : List Char) : List Char := l.map lowerChar

/-- The `file_ext` computed at the top of ChatBackend.process_file:
os.path.splitext(file_path)[1].lower(). -/
def file_ext_of (p : List Char) : List Char := lowerList (splitextExt p)

/-- Python re.split on a single escaped separator character (the splitter is
constructed with separator "\n" and is_separator_regex left False). -/
def splitOnChar (sep : Char) : List Char → List (List Char)
  | [] => [[]]
  | c :: rest =>
    if c = sep then [] :: splitOnChar sep rest
    else
      match splitOnChar sep rest with
      | [] => [[c]]
      | p :: ps => (c :: p) :: ps

/-- Python str whitespace recognizer (the ASCII fragment of str.strip). -/
def isPySpace (c : Char) : Bool :=
  c = ' ' || c = '\t' || c = '\n' || c = '\r' || c = '\x0b' || c = '\x0c'

/-- Python str.strip(): drop whitespace from both ends. -/
def pyStrip (l : List Char) : List Char :=
  ((l.dropWhile isPySpace).reverse.dropWhile isPySpace).reverse

/-- Python sep.join(docs). -/
def joinWithSep (sep : List Char) : List (List Char) → List Char
  | [] => []
  | [d] => d
  | d :: rest => d ++ sep ++ joinWithSep sep rest

/-- TextSplitter._join_docs with strip_whitespace at its default True: join the
buffered pieces with the separator, strip, and drop the result if empty. -/
def joinDocsOpt (sep : List Char) (docs : List (List Char)) : Option (List Char) :=
  let text := pyStrip (joinWithSep sep docs)
  if text = [] then none else some text

/-- Size and overlap parameters of the splitter (chat_app.py passes 1000/200). -/
structure SplitCfg where
  chunkSize : Int
  chunkOverlap : Int

/-- The parameters used by ChatBackend.process_files. -/
def defaultSplitCfg : SplitCfg := ⟨1000, 200⟩

/-- The inner while loop of TextSplitter._merge_splits: pop buffered pieces
from the front while the running total exceeds the overlap, or appending the
next piece would still overflow the chunk size.  In the source the loop runs
with a non-empty buffer, so the separator term guarded by len(current_doc) > 0
is materialised directly in the cons case. -/
def popOverlap (cfg : SplitCfg) (sepLen dLen : Int) :
    List (List Char) → Int → List (List Char) × Int
  | [], total => ([], total)
  | p :: rest, total =>
    if total > cfg.chunkOverlap ∨ (total + dLen + sepLen > cfg.chunkSize ∧ total > 0) then
      popOverlap cfg sepLen dLen rest (total - ((p.length : Int) + if rest = [] then 0 else sepLen))
    else (p :: rest, total)

/-- The main loop of TextSplitter._merge_splits, one recursive step per split
piece: when appending the piece would overflow a non-empty buffer, flush the
joined buffer into the output and retain an overlap suffix; then append the
piece and update the running total. -/
def mergeGo (cfg : SplitCfg) (sep : List Char) :
    List (List Char) → List (List Char) → Int → List (List Char) → List (List Char)
  | [], cur, _, docs =>
    match joinDocsOpt sep cur with
    | some doc => docs ++ [doc]
    | none => docs
  | d :: rest, cur, total, docs =>
    if (total + (d.length : Int) + (if cur = [] then 0 else (sep.length : Int)) > cfg.chunkSize)
        ∧ cur ≠ [] then
      mergeGo cfg sep rest
        ((popOverlap cfg (sep.length : Int) (d.length : Int) cur total).1 ++ [d])
        ((popOverlap cfg (sep.length : Int) (d.length : Int) cur total).2 + (d.length : Int)
          + (if (popOverlap cfg (sep.length : Int) (d.length : Int) cur total).1 = [] then 0
             else (sep.length : Int)))
        (match joinDocsOpt sep cur with
         | some doc => docs ++ [doc]
         | none => docs)
    else
      mergeGo cfg sep rest (cur ++ [d])
        (total + (d.length : Int) + (if cur = [] then 0 else (sep.length : Int))) docs

/-- CharacterTextSplitter.split_text with keep_separator at its default False:
split on the separator, discard empty pieces, and merge with the separator. -/
def split_text (cfg : SplitCfg) (sep : Char) (text : List Char) : List (List Char) :=
  mergeGo cfg [sep] ((splitOnChar sep text).filter (fun p => p ≠ [])) [] 0 []

/-- External FAISS vector index, abstracted to the chunk texts it was built
from (FAISS.from_texts receives exactly these). -/
structure VectorStore where
  texts : List (List Char)
deriving DecidableEq

/-- One transcript message of the conversational memory. -/
structure ChatMessage where
  content : List Char
deriving DecidableEq

/-- External ConversationalRetrievalChain: the retriever it wraps and the
content of its ConversationBufferMemory. -/
structure Conversation where
  store : VectorStore
  memory : List ChatMessage
deriving DecidableEq

/-- A retrieved source document. -/
structure Document where
  page_content : List Char
deriving DecidableEq

/-- The dictionary produced by a successful chain invocation: answer text,
chat_history, and optionally source_documents. -/
structure InvokeResponse where
  answer : List Char
  chat_history : List ChatMessage
  source_documents : Option (List Document)
deriving DecidableEq

/-- Session state of ChatBackend: the three attributes set in __init__. -/
structure ChatBackend where
  conversation : Option Conversation
  vectorstore : Option VectorStore
  chat_history : Option (List ChatMessage)
deriving DecidableEq

/-- ChatBackend.__init__: all three attributes start as None. -/
def ChatBackend.initial : ChatBackend := ⟨none, none, none⟩

/-- External pandas DataFrame, abstracted to the observations made by
process_file: column names, row count, the to_string rendering of head(5),
the numeric column names, and the to_string rendering of describe(). -/
structure Frame where
  columns : List (List Char)
  nrows : Nat
  headText : List Char
  numericColumns : List (List Char)
  describeText : List Char
deriving DecidableEq

/-- Oracles for every external call made by chat_app.py.  An `.error` result
models the call raising an exception carrying the given message. -/
structure World where
  readFile : List Char → Except (List Char) (List Char)
  pdfPages : List Char → Except (List Char) (List (List Char))
  readCsv : List Char → Except (List Char) Frame
  readExcel : List Char → Except (List Char) Frame
  faissFromTexts : List (List Char) → Except (List Char) VectorStore
  buildChain : VectorStore → Except (List Char) Unit
  invoke : Conversation → List Char → Except (List Char) (Conversation × InvokeResponse)

/-- The environment variables read by setup_conversation_chain. -/
structure EnvVars where
  azure_api_key : Option (List Char)
  azure_endpoint : Option (List Char)

/-- Python truthiness of os.environ.get: None and the empty string are falsy. -/
def truthyOpt : Option (List Char) → Bool
  | none => false
  | some s => !s.isEmpty

/-- Decimal rendering of a row or chunk count (Python str(n)). -/
def natChars (n : Nat) : List Char := (Nat.repr n).data

/-- ChatBackend.extract_text_from_pdf: concatenate each page text plus a
newline; on any exception return the formatted error string instead. -/
def extract_text_from_pdf (w : World) (pdf_path : List Char) : List Char :=
  match w.pdfPages pdf_path with
  | .ok pages => pages.foldl (fun acc page => acc ++ page ++ chars "\n") []
  | .error e => chars "Error extracting text from PDF " ++ pyBasename pdf_path ++ chars ": " ++ e

/-- The report string built for tabular files in process_file lines 38-48. -/
def frameReport (name : List Char) (df : Frame) : List Char :=
  chars "File: " ++ name ++ chars "\n" ++
  chars "Columns: " ++ joinWithSep (chars ", ") df.columns ++ chars "\n" ++
  chars "Rows: " ++ natChars df.nrows ++ chars "\n\n" ++
  chars "Sample data:\n" ++ df.headText ++ chars "\n\n" ++
  chars "Summary statistics:\n" ++
  (if df.numericColumns.length > 0 then df.describeText else [])

/-- ChatBackend.process_file: dispatch on the lowercased extension; every
failure of an external call inside the try block degrades to an inline error
string, and unrecognized extensions yield the unsupported-type marker. -/
def process_file (w : World) (file_path : List Char) : List Char :=
  if file_ext_of file_path = chars ".pdf" then
    chars "File: " ++ pyBasename file_path ++ chars "\n\n" ++ extract_text_from_pdf w file_path
  else if file_ext_of file_path = chars ".csv" ∨ file_ext_of file_path = chars ".xlsx"
      ∨ file_ext_of file_path = chars ".xls" then
    match (if file_ext_of file_path = chars ".csv" then w.readCsv file_path
           else w.readExcel file_path) with
    | .ok df => frameReport (pyBasename file_path) df
    | .error e => chars "Error processing file " ++ pyBasename file_path ++ chars ": " ++ e
  else if file_ext_of file_path = chars ".txt" ∨ file_ext_of file_path = chars ".md"
      ∨ file_ext_of file_path = chars ".json" ∨ file_ext_of file_path = chars ".xml"
      ∨ file_ext_of file_path = chars ".html" then
    match w.readFile file_path with
    | .ok content => chars "File: " ++ pyBasename file_path ++ chars "\n\n" ++ content
    | .error e => chars "Error processing file " ++ pyBasename file_path ++ chars ": " ++ e
  else
    chars "Unsupported file type: " ++ file_ext_of file_path ++ chars " for file "
      ++ pyBasename file_path

/-- The 50-dash section delimiter of process_files. -/
def rule50 : List Char := List.replicate 50 '-'

/-- The all_text accumulation loop of process_files: each per-file result is
followed by a blank line, the 50-dash rule, and another blank line. -/
def assembleAllText (w : World) : List (List Char) → List Char
  | [] => []
  | p :: rest =>
    process_file w p ++ chars "\n\n" ++ rule50 ++ chars "\n\n" ++ assembleAllText w rest

/-- ChatBackend.create_vectorstore: FAISS.from_texts, with any exception
caught and turned into None. -/
def create_vectorstore (w : World) (text_chunks : List (List Char)) : Option VectorStore :=
  match w.faissFromTexts text_chunks with
  | .ok v => some v
  | .error _ => none

/-- ChatBackend.setup_conversation_chain: None when the Azure key or endpoint
is missing or empty; otherwise the chain construction may raise (caught,
yielding None) or produce a chain over the store with a fresh empty memory. -/
def setup_conversation_chain (env : EnvVars) (w : World) (vs : VectorStore) :
    Option Conversation :=
  if !truthyOpt env.azure_api_key || !truthyOpt env.azure_endpoint then none
  else
    match w.buildChain vs with
    | .ok _ => some ⟨vs, []⟩
    | .error _ => none

/-- ChatBackend.process_files: assemble the corpus, split it, and rebuild the
session state, returning the (success, message) pair of the source.  The
assignments self.vectorstore = ... and self.conversation = ... are performed
in order, so an early return leaves later fields at their prior values. -/
def process_files (st : ChatBackend) (env : EnvVars) (w : World)
    (file_paths : List (List Char)) : ChatBackend × Bool × List Char :=
  if split_text defaultSplitCfg '\n' (assembleAllText w file_paths) = [] then
    (st, false, chars "No text content was extracted from the files")
  else
    match create_vectorstore w (split_text defaultSplitCfg '\n' (assembleAllText w file_paths)) with
    | none => ({ st with vectorstore := none }, false, chars "Failed to create vector store")
    | some vs =>
      match setup_conversation_chain env w vs with
      | none =>
        ({ st with vectorstore := some vs, conversation := none }, false,
         chars "Failed to set up conversation chain")
      | some conv =>
        ({ st with vectorstore := some vs, conversation := some conv }, true,
         chars "Data processed successfully! Created "
           ++ natChars (split_text defaultSplitCfg '\n' (assembleAllText w file_paths)).length
           ++ chars " chunks for searching.")

/-- Result of ChatBackend.ask_question: either the error dictionary or the
answer/chat_history/source_documents dictionary. -/
inductive AskResult where
  | error (msg : List Char)
  | answered (answer : List Char) (chat_history : List ChatMessage)
      (source_documents : List Document)
deriving DecidableEq

/-- ChatBackend.ask_question: guard on the chain, invoke it, store the
returned chat_history, and catch any exception as an error dictionary. -/
def ask_question (w : World) (st : ChatBackend) (question : List Char) :
    ChatBackend × AskResult :=
  match st.conversation with
  | none => (st, .error (chars "Conversation chain not initialized. Process data first."))
  | some conv =>
    match w.invoke conv question with
    | .error e => (st, .error (chars "Error processing question: " ++ e))
    | .ok (conv2, resp) =>
      ({ st with conversation := some conv2, chat_history := some resp.chat_history },
       .answered resp.answer resp.chat_history (resp.source_documents.getD []))

/-- ChatBackend.clear_chat_history: when a chain exists, clear its memory in
place and reset the stored transcript, reporting True; otherwise False. -/
def clear_chat_history (st : ChatBackend) : ChatBackend × Bool :=
  match st.conversation with
  | some conv =>
    ({ st with conversation := some { conv with memory := [] }, chat_history := none }, true)
  | none => (st, false)

/-- Environment variables read by data_upload.py and data_download.py. -/
structure AzureEnv where
  conn_string : Option (List Char)
  container_name : Option (List Char)

/-- Oracles for the Azure blob SDK and local filesystem calls. -/
structure AzureWorld where
  createContainer : Except (List Char) Unit
  fileExists : List Char → Bool
  uploadBlob : List Char → List Char → Except (List Char) Unit
  tempDir : List Char
  listBlobs : Except (List Char) (List (List Char))
  downloadBlob : List Char → Except (List Char) Unit

/-- The per-file loop of upload_to_azure, returning the printed log lines:
missing files produce a warning and are skipped, and an upload exception is
caught and logged without affecting anything else. -/
def uploadLoop (w : AzureWorld) : List (List Char × List Char) → List (List Char)
  | [] => []
  | (local_file, content_type) :: rest =>
    (if w.fileExists local_file = false then
       [chars "Warning: File not found - " ++ local_file]
     else
       match w.uploadBlob (pyBasename local_file) content_type with
       | .ok _ => [chars "✅ Uploaded " ++ pyBasename local_file ++ chars " as " ++ content_type]
       | .error e => [chars "Error uploading " ++ pyBasename local_file ++ chars ": " ++ e])
      ++ uploadLoop w rest

/-- upload_to_azure: False only when the connection configuration is missing;
otherwise the container step is attempted (its exception caught), the per-file
loop runs, and True is returned unconditionally.  The second component models
the printed output. -/
def upload_to_azure (env : AzureEnv) (w : AzureWorld)
    (files_to_upload : List (List Char × List Char)) : Bool × List (List Char) :=
  if !truthyOpt env.conn_string || !truthyOpt env.container_name then
    (false, [chars "Error: Azure connection details not found in environment variables"])
  else
    (true,
     (match w.createContainer with
      | .ok _ => [chars "Created container: " ++ env.container_name.getD []]
      | .error _ => [chars "Using existing container: " ++ env.container_name.getD []])
       ++ uploadLoop w files_to_upload)

/-- Dynamic result type of download_from_azure: the missing-configuration
branch returns a bare None, the other branches return a pair. -/
inductive DownloadResult where
  | bareNone
  | pair (dir : Option (List Char)) (files : List (List Char))
deriving DecidableEq

/-- The blob download loop of download_from_azure: each blob is written under
the temp directory and collected; the first exception aborts the whole loop. -/
def downloadAll (w : AzureWorld) (temp_dir : List Char) :
    List (List Char) → Except (List Char) (List (List Char))
  | [] => .ok []
  | b :: rest =>
    match w.downloadBlob b with
    | .error e => .error e
    | .ok _ =>
      match downloadAll w temp_dir rest with
      | .error e => .error e
      | .ok fs => .ok ((temp_dir ++ chars "/" ++ b) :: fs)

/-- download_from_azure: bare None on missing configuration, (None, []) when
listing or downloading raises, (temp_dir, files) on success. -/
def download_from_azure (env : AzureEnv) (w : AzureWorld) : DownloadResult :=
  if !truthyOpt env.conn_string || !truthyOpt env.container_name then .bareNone
  else
    match w.listBlobs with
    | .error _ => .pair none []
    | .ok blobs =>
      match downloadAll w w.tempDir blobs with
      | .error _ => .pair none []
      | .ok fs => .pair (some w.tempDir) fs

/-- Tuple unpacking `temp_dir, downloaded_files = download_from_azure()` as
performed by chat_ui.main: unpacking a bare None raises (modelled as none). -/
def unpackPair : DownloadResult → Option (Option (List Char) × List (List Char))
  | .bareNone => none
  | .pair d fs => some (d, fs)

/-! Concrete sample data used by witnesses. -/

/-- A sample DataFrame abstraction. -/
def sampleFrame : Frame := ⟨[chars "a"], 2, chars "a sample", [chars "a"], chars "stats"⟩

/-- A fully functioning oracle world: a.txt holds "hello world", PDFs have one
page, tables parse, indexing and chain construction succeed, and the chain
answers "an answer" with one source snippet. -/
def wOK : World :=
  ⟨fun p => if p = chars "a.txt" then .ok (chars "hello world")
            else .error (chars "No such file or directory"),
   fun _ => .ok [chars "page one"],
   fun _ => .ok sampleFrame,
   fun _ => .ok sampleFrame,
   fun ts => .ok ⟨ts⟩,
   fun _ => .ok (),
   fun conv q => .ok ({ conv with memory := conv.memory ++ [⟨q⟩, ⟨chars "an answer"⟩] },
     ⟨chars "an answer", [⟨q⟩, ⟨chars "an answer"⟩], some [⟨chars "snippet"⟩]⟩)⟩

/-- Environment with the Azure OpenAI variables absent. -/
def envNoAzure : EnvVars := ⟨none, none⟩

/-- Environment with the Azure OpenAI variables present. -/
def envAzureOK : EnvVars := ⟨some (chars "key"), some (chars "endpoint")⟩

/-- A sample vector store. -/
def vs0 : VectorStore := ⟨[chars "chunk"]⟩

/-- A sample conversation chain with empty memory. -/
def conv0 : Conversation := ⟨vs0, []⟩

/-- A session state holding a chain and an index. -/
def stConv : ChatBackend := ⟨some conv0, some vs0, none⟩

/-- A world whose chain invocation raises "boom". -/
def wInvokeErr : World := { wOK with invoke := fun _ _ => .error (chars "boom") }

/-- A world whose PDF reader raises. -/
def wPdfErr : World := { wOK with pdfPages := fun _ => .error (chars "EOF marker not found") }

/-- A world whose CSV parser raises. -/
def wCsvErr : World := { wOK with readCsv := fun _ => .error (chars "bad csv") }

/-- A world whose Excel parser raises. -/
def wXlsErr : World := { wOK with readExcel := fun _ => .error (chars "bad sheet") }

/-! Helper lemmas about the splitter, shared by several claims. -/

/-- A piece has ink when it holds at least one non-whitespace character. -/
def hasInk (p : List Char) : Prop := ∃ c ∈ p, isPySpace c = false

/-- Membership transfers from a piece into the separator join of the pieces. -/
theorem mem_joinWithSep {c : Char} {sep : List Char} :
    ∀ {docs : List (List Char)} {p : List Char}, p ∈ docs → c ∈ p →
      c ∈ joinWithSep sep docs := by
  intro docs
  induction docs with
  | nil => intro p hp _; cases hp
  | cons d rest ih =>
    intro p hp hc
    cases rest with
    | nil =>
      have : p = d := by simpa using hp
      subst this
      simpa [joinWithSep] using hc
    | cons e rest2 =>
      rcases List.mem_cons.mp hp with h | h
      · subst h
        simp only [joinWithSep]
        exact List.mem_append.mpr (Or.inl (List.mem_append.mpr (Or.inl hc)))
      · simp only [joinWithSep]
        exact List.mem_append.mpr (Or.inr (ih h hc))

/-- A non-whitespace member survives dropWhile on a whitespace predicate. -/
theorem mem_dropWhile_of_not {p : Char → Bool} {c : Char} {l : List Char}
    (hc : c ∈ l) (hp : p c = false) : c ∈ l.dropWhile p := by
  have hsplit : l.takeWhile p ++ l.dropWhile p = l := List.takeWhile_append_dropWhile p l
  rw [← hsplit] at hc
  rcases List.mem_append.mp hc with h | h
  · have := List.mem_takeWhile_imp h
    rw [hp] at this
    cases this
  · exact h

/-- Stripping keeps a list non-empty when it holds a non-whitespace char. -/
theorem pyStrip_ne_nil {c : Char} {l : List Char}
    (hc : c ∈ l) (hws : isPySpace c = false) : pyStrip l ≠ [] := by
  have h1 : c ∈ l.dropWhile isPySpace := mem_dropWhile_of_not hc hws
  have h2 : c ∈ (l.dropWhile isPySpace).reverse := List.mem_reverse.mpr h1
  have h3 : c ∈ (l.dropWhile isPySpace).reverse.dropWhile isPySpace :=
    mem_dropWhile_of_not h2 hws
  have h4 : c ∈ pyStrip l := List.mem_reverse.mpr h3
  exact List.ne_nil_of_mem h4

/-- Joining a buffer that has ink yields a chunk (the strip is non-empty). -/
theorem joinDocsOpt_isSome (sep : List Char) {docs : List (List Char)}
    (h : ∃ p ∈ docs, hasInk p) : (joinDocsOpt sep docs).isSome = true := by
  obtain ⟨p, hp, c, hc, hws⟩ := h
  have hmem : c ∈ joinWithSep sep docs := mem_joinWithSep hp hc
  have hne : pyStrip (joinWithSep sep docs) ≠ [] := pyStrip_ne_nil hmem hws
  simp [joinDocsOpt, hne]

/-- The splitter never produces an empty piece list before filtering. -/
theorem splitOnChar_ne_nil (sep : Char) : ∀ l : List Char, splitOnChar sep l ≠ [] := by
  intro l
  induction l with
  | nil => simp [splitOnChar]
  | cons c rest ih =>
    simp only [splitOnChar]
    by_cases hc : c = sep
    · simp [hc]
    · rw [if_neg hc]
      cases h : splitOnChar sep rest with
      | nil => exact absurd h ih
      | cons p ps => simp

/-- Any non-separator character of the text lands inside some split piece. -/
theorem exists_piece_of_mem {sep c : Char} (hne : c ≠ sep) :
    ∀ {l : List Char}, c ∈ l → ∃ p ∈ splitOnChar sep l, c ∈ p := by
  intro l
  induction l with
  | nil => intro h; cases h
  | cons a rest ih =>
    intro hmem
    by_cases ha : a = sep
    · have hr : c ∈ rest := by
        rcases List.mem_cons.mp hmem with h | h
        · exact absurd (h.trans ha) hne
        · exact h
      obtain ⟨p, hp, hcp⟩ := ih hr
      refine ⟨p, ?_, hcp⟩
      simp only [splitOnChar, if_pos ha]
      exact List.mem_cons_of_mem _ hp
    · cases hsp : splitOnChar sep rest with
      | nil => exact absurd hsp (splitOnChar_ne_nil sep rest)
      | cons p ps =>
        rcases List.mem_cons.mp hmem with h | h
        · refine ⟨a :: p, ?_, by rw [h]; exact List.mem_cons_self _ _⟩
          simp [splitOnChar, if_neg ha, hsp]
        · obtain ⟨q, hq, hcq⟩ := ih h
          rw [hsp] at hq
          rcases List.mem_cons.mp hq with rfl | hq'
          · refine ⟨a :: q, ?_, List.mem_cons_of_mem _ hcq⟩
            simp [splitOnChar, if_neg ha, hsp]
          · refine ⟨q, ?_, hcq⟩
            simp only [splitOnChar, if_neg ha, hsp]
            exact List.mem_cons_of_mem _ hq'

/-- The merge loop cannot return an empty chunk list once the accumulated
output is non-empty, or some buffered or pending piece has ink. -/
theorem mergeGo_ne_nil (cfg : SplitCfg) (sep : List Char) :
    ∀ (splits : List (List Char)), ∀ (cur : List (List Char)) (total : Int)
      (docs : List (List Char)),
      (docs ≠ [] ∨ (∃ p ∈ cur, hasInk p) ∨ (∃ p ∈ splits, hasInk p)) →
      mergeGo cfg sep splits cur total docs ≠ [] := by
  intro splits
  induction splits with
  | nil =>
    intro cur total docs h
    simp only [mergeGo]
    rcases h with hd | hc | hs
    · cases hj : joinDocsOpt sep cur <;> simp [hd]
    · rcases Option.isSome_iff_exists.mp (joinDocsOpt_isSome sep hc) with ⟨doc, hj⟩
      rw [hj]
      simp
    · simp at hs
  | cons d rest ih =>
    intro cur total docs h
    simp only [mergeGo]
    by_cases hcond : (total + (d.length : Int)
        + (if cur = [] then 0 else (sep.length : Int)) > cfg.chunkSize) ∧ cur ≠ []
    · rw [if_pos hcond]
      apply ih
      rcases h with hd | hc | hs
      · left
        cases hj : joinDocsOpt sep cur <;> simp [hd]
      · left
        rcases Option.isSome_iff_exists.mp (joinDocsOpt_isSome sep hc) with ⟨doc, hj⟩
        rw [hj]
        simp
      · rcases hs with ⟨p, hp, hink⟩
        rcases List.mem_cons.mp hp with rfl | hp'
        · exact Or.inr (Or.inl ⟨p, List.mem_append.mpr (Or.inr (by simp)), hink⟩)
        · exact Or.inr (Or.inr ⟨p, hp', hink⟩)
    · rw [if_neg hcond]
      apply ih
      rcases h with hd | hc | hs
      · exact Or.inl hd
      · rcases hc with ⟨p, hp, hink⟩
        exact Or.inr (Or.inl ⟨p, List.mem_append.mpr (Or.inl hp), hink⟩)
      · rcases hs with ⟨p, hp, hink⟩
        rcases List.mem_cons.mp hp with rfl | hp'
        · exact Or.inr (Or.inl ⟨p, List.mem_append.mpr (Or.inr (by simp)), hink⟩)
        · exact Or.inr (Or.inr ⟨p, hp', hink⟩)

/-- A text holding a non-whitespace, non-separator character splits into at
least one chunk. -/
theorem split_text_ne_nil {c : Char} {text : List Char}
    (hmem : c ∈ text) (hsep : c ≠ '\n') (hws : isPySpace c = false) :
    split_text defaultSplitCfg '\n' text ≠ [] := by
  unfold split_text
  apply mergeGo_ne_nil
  right; right
  obtain ⟨p, hp, hcp⟩ := exists_piece_of_mem hsep hmem
  refine ⟨p, ?_, ⟨c, hcp, hws⟩⟩
  simp only [List.mem_filter]
  exact ⟨hp, by simp [List.ne_nil_of_mem hcp]⟩

/-- The success message of process_files differs from the empty-corpus
failure message whatever the chunk count. -/
theorem success_msg_ne (m : List Char) :
    chars "Data processed successfully! Created " ++ m
      ≠ chars "No text content was extracted from the files" := by
  intro h
  have h1 : (chars "Data processed successfully! Created " ++ m).head? = some 'D' := rfl
  rw [h] at h1
  exact absurd h1 (by decide)

/-- A missing local file contributes its warning line to the upload log. -/
theorem uploadLoop_warn_mem (w : AzureWorld) :
    ∀ (files : List (List Char × List Char)) (lf ct : List Char),
      (lf, ct) ∈ files → w.fileExists lf = false →
      (chars "Warning: File not found - " ++ lf) ∈ uploadLoop w files := by
  intro files
  induction files with
  | nil => intro lf ct h _; cases h
  | cons f rest ih =>
    intro lf ct hm hex
    obtain ⟨a, b⟩ := f
    rcases List.mem_cons.mp hm with h | h
    · have ha : a = lf := (Prod.ext_iff.mp h).1.symm
      subst ha
      simp [uploadLoop, hex]
    · simp only [uploadLoop]
      exact List.mem_append.mpr (Or.inr (ih lf ct h hex))

/-- Claim C2 (counterexample): ingesting ["a.txt"] containing "hello world"
does NOT yield the single chunk "File: a.txt\n\nhello world" — the splitter
collapses the blank line to a single newline and keeps the dash rule. -/
theorem claim_C2_counterexample :
    split_text defaultSplitCfg '\n' (assembleAllText wOK [chars "a.txt"])
      ≠ [chars "File: a.txt\n\nhello world"] := by decide

/-- Claim C2 (amended): for the single input file list ["a.txt"] whose file
contains exactly "hello world", the corpus assembler with chunk size 1000 and
overlap 200 produces exactly one chunk, equal to
"File: a.txt\nhello world\n" followed by the 50-dash rule: the splitter drops
empty pieces and rejoins on a single newline, and strips only the trailing
blank lines after the rule, so the rule stays inside the chunk. -/
theorem claim_C2_amended :
    split_text defaultSplitCfg '\n' (assembleAllText wOK [chars "a.txt"])
      = [chars "File: a.txt\nhello world\n" ++ rule50] := by decide

/-- Claim C3: for every question, calling ask_question while no chat object
exists returns the structured uninitialized-chain error dictionary (and, the
guard being the first statement, nothing can raise), with the state unchanged. -/
theorem claim_C3 (w : World) (st : ChatBackend) (question : List Char)
    (h : st.conversation = none) :
    ask_question w st question
      = (st, .error (chars "Conversation chain not initialized. Process data first.")) := by
  simp [ask_question, h]

/-- Claim C3 witness: a fresh backend answers with the uninitialized error. -/
theorem claim_C3_witness :
    ask_question wOK ChatBackend.initial (chars "hi")
      = (ChatBackend.initial,
         .error (chars "Conversation chain not initialized. Process data first.")) :=
  claim_C3 wOK ChatBackend.initial (chars "hi") rfl

/-- Claim C4: with a chat object present, a raising chain invocation yields a
structured error carrying the failure description and leaves the state (in
particular the stored chat_history transcript) unmodified; a successful
invocation yields the answer, transcript and source snippets and stores the
transcript. -/
theorem claim_C4 (w : World) (st : ChatBackend) (question : List Char)
    (conv : Conversation) (h : st.conversation = some conv) :
    (∀ e, w.invoke conv question = .error e →
       ask_question w st question
         = (st, .error (chars "Error processing question: " ++ e))) ∧
    (∀ conv2 resp, w.invoke conv question = .ok (conv2, resp) →
       ask_question w st question
         = ({ st with conversation := some conv2, chat_history := some resp.chat_history },
            .answered resp.answer resp.chat_history (resp.source_documents.getD []))) := by
  constructor
  · intro e hi
    simp [ask_question, h, hi]
  · intro conv2 resp hi
    simp [ask_question, h, hi]

/-- Claim C4 witness: with the chain present, an invocation raising "boom"
returns the formatted error and the untouched state, and a successful
invocation returns the answer, transcript and snippets. -/
theorem claim_C4_witness :
    ask_question wInvokeErr stConv (chars "q")
      = (stConv, .error (chars "Error processing question: boom")) ∧
    ask_question wOK stConv (chars "q")
      = ({ stConv with
             conversation := some { conv0 with memory := [⟨chars "q"⟩, ⟨chars "an answer"⟩] },
             chat_history := some [⟨chars "q"⟩, ⟨chars "an answer"⟩] },
         .answered (chars "an answer") [⟨chars "q"⟩, ⟨chars "an answer"⟩]
           [⟨chars "snippet"⟩]) :=
  ⟨(claim_C4 wInvokeErr stConv (chars "q") conv0 rfl).1 (chars "boom") rfl,
   (claim_C4 wOK stConv (chars "q") conv0 rfl).2
     { conv0 with memory := [⟨chars "q"⟩, ⟨chars "an answer"⟩] }
     ⟨chars "an answer", [⟨chars "q"⟩, ⟨chars "an answer"⟩], some [⟨chars "snippet"⟩]⟩ rfl⟩

/-- Claim C5: process_file is total by construction (every external failure is
consumed by the modelled try/except), and on any path whose lowercased
extension is unrecognized it returns the unsupported-file-type marker naming
the extension and the file. -/
theorem claim_C5 (w : World) (file_path : List Char)
    (h : file_ext_of file_path ∉
      [chars ".pdf", chars ".csv", chars ".xlsx", chars ".xls", chars ".txt",
       chars ".md", chars ".json", chars ".xml", chars ".html"]) :
    process_file w file_path
      = chars "Unsupported file type: " ++ file_ext_of file_path ++ chars " for file "
          ++ pyBasename file_path := by
  have h1 : ¬(file_ext_of file_path = chars ".pdf") := fun he => h (by rw [he]; decide)
  have h2 : ¬(file_ext_of file_path = chars ".csv" ∨ file_ext_of file_path = chars ".xlsx"
      ∨ file_ext_of file_path = chars ".xls") := by
    rintro (he | he | he) <;> exact h (by rw [he]; decide)
  have h3 : ¬(file_ext_of file_path = chars ".txt" ∨ file_ext_of file_path = chars ".md"
      ∨ file_ext_of file_path = chars ".json" ∨ file_ext_of file_path = chars ".xml"
      ∨ file_ext_of file_path = chars ".html") := by
    rintro (he | he | he | he | he) <;> exact h (by rw [he]; decide)
  unfold process_file
  rw [if_neg h1, if_neg h2, if_neg h3]

/-- Claim C5 witness: a .zip file yields the unsupported-type marker. -/
theorem claim_C5_witness :
    process_file wOK (chars "archive.zip")
      = chars "Unsupported file type: .zip for file archive.zip" :=
  (claim_C5 wOK (chars "archive.zip") (by decide)).trans (by decide)

/-- Claim C6: when the PDF reader raises, process_file returns (not raises)
the text-block whose tail is the PDF error string naming the base name and
the exception message; when the CSV or Excel parser raises, it returns the
processing-error string naming the base name and the exception message. -/
theorem claim_C6 (w : World) (file_path e : List Char) :
    (file_ext_of file_path = chars ".pdf" → w.pdfPages file_path = .error e →
      process_file w file_path
        = chars "File: " ++ pyBasename file_path ++ chars "\n\n"
            ++ (chars "Error extracting text from PDF " ++ pyBasename file_path
                ++ chars ": " ++ e)) ∧
    (file_ext_of file_path = chars ".csv" → w.readCsv file_path = .error e →
      process_file w file_path
        = chars "Error processing file " ++ pyBasename file_path ++ chars ": " ++ e) ∧
    (file_ext_of file_path = chars ".xlsx" → w.readExcel file_path = .error e →
      process_file w file_path
        = chars "Error processing file " ++ pyBasename file_path ++ chars ": " ++ e) ∧
    (file_ext_of file_path = chars ".xls" → w.readExcel file_path = .error e →
      process_file w file_path
        = chars "Error processing file " ++ pyBasename file_path ++ chars ": " ++ e) := by
  refine ⟨?_, ?_, ?_, ?_⟩
  · intro hext herr
    unfold process_file extract_text_from_pdf
    rw [hext, if_pos rfl, herr]
  · intro hext herr
    unfold process_file
    rw [hext, if_neg (by decide), if_pos (Or.inl rfl), if_pos rfl, herr]
  · intro hext herr
    unfold process_file
    rw [hext, if_neg (by decide), if_pos (Or.inr (Or.inl rfl)), if_neg (by decide), herr]
  · intro hext herr
    unfold process_file
    rw [hext, if_neg (by decide), if_pos (Or.inr (Or.inr rfl)), if_neg (by decide), herr]

/-- Claim C6 witness: a raising PDF read and a raising CSV parse both degrade
to the documented error strings, which carry the base name and the message. -/
theorem claim_C6_witness :
    process_file wPdfErr (chars "docs/doc.pdf")
      = chars "File: doc.pdf\n\nError extracting text from PDF doc.pdf: EOF marker not found" ∧
    process_file wCsvErr (chars "data.csv")
      = chars "Error processing file data.csv: bad csv" :=
  ⟨((claim_C6 wPdfErr (chars "docs/doc.pdf") (chars "EOF marker not found")).1
      (by decide) rfl).trans (by decide),
   ((claim_C6 wCsvErr (chars "data.csv") (chars "bad csv")).2.1 (by decide) rfl).trans
      (by decide)⟩

/-- Claim C1 (counterexample): ingestion is not atomic.  With the Azure
environment variables missing but indexing succeeding, process_files on a
fresh backend reports failure yet leaves the vector index constructed while
the chat object is absent — the partial state the claim rules out. -/
theorem claim_C1_counterexample :
    (process_files ChatBackend.initial envNoAzure wOK [chars "a.txt"]).2.1 = false ∧
    (process_files ChatBackend.initial envNoAzure wOK [chars "a.txt"]).1.vectorstore.isSome
      = true ∧
    (process_files ChatBackend.initial envNoAzure wOK [chars "a.txt"]).1.conversation
      = none := by
  refine ⟨?_, ?_, ?_⟩ <;> decide

/-- Claim C1 (amended): when process_files reports success both the vector
index and the chat object are constructed, and a question is only answered
when the chat object exists; but on reported failure the state may be
partial (the counterexample shows index present with chat object absent). -/
theorem claim_C1_amended (st : ChatBackend) (env : EnvVars) (w : World)
    (file_paths : List (List Char)) :
    ((process_files st env w file_paths).2.1 = true →
       (process_files st env w file_paths).1.vectorstore.isSome = true ∧
       (process_files st env w file_paths).1.conversation.isSome = true) ∧
    (∀ st2 q, st2.conversation = none →
       ask_question w st2 q
         = (st2, .error (chars "Conversation chain not initialized. Process data first."))) := by
  constructor
  · intro hsucc
    unfold process_files at hsucc ⊢
    by_cases hc : split_text defaultSplitCfg '\n' (assembleAllText w file_paths) = []
    · rw [if_pos hc] at hsucc
      simp at hsucc
    · rw [if_neg hc] at hsucc ⊢
      cases hv : create_vectorstore w
          (split_text defaultSplitCfg '\n' (assembleAllText w file_paths)) with
      | none =>
        rw [hv] at hsucc
        simp at hsucc
      | some vs =>
        rw [hv] at hsucc
        simp only [] at hsucc ⊢
        cases hs : setup_conversation_chain env w vs with
        | none =>
          rw [hs] at hsucc
          simp at hsucc
        | some conv => simp
  · intro st2 q h2
    simp [ask_question, h2]

/-- Claim C1 witness: a fully successful ingest constructs both the index and
the chat object, and a chat-object-free backend refuses questions. -/
theorem claim_C1_witness :
    ((process_files ChatBackend.initial envAzureOK wOK [chars "a.txt"]).1.vectorstore.isSome
        = true ∧
     (process_files ChatBackend.initial envAzureOK wOK [chars "a.txt"]).1.conversation.isSome
        = true) ∧
    ask_question wOK ChatBackend.initial (chars "hello")
      = (ChatBackend.initial,
         .error (chars "Conversation chain not initialized. Process data first.")) :=
  ⟨(claim_C1_amended ChatBackend.initial envAzureOK wOK [chars "a.txt"]).1 (by decide),
   (claim_C1_amended ChatBackend.initial envAzureOK wOK [chars "a.txt"]).2
     ChatBackend.initial (chars "hello") rfl⟩

/-- Claim C7: clear_chat_history reports success exactly when a chat object
exists, in which case the memory is cleared in place and the stored transcript
reset; with no chat object it reports failure and changes nothing; in every
case the vector index field is untouched. -/
theorem claim_C7 (st : ChatBackend) :
    ((clear_chat_history st).2 = true ↔ st.conversation.isSome = true) ∧
    (clear_chat_history st).1.vectorstore = st.vectorstore ∧
    (∀ conv, st.conversation = some conv →
       (clear_chat_history st).1
         = { st with conversation := some { conv with memory := [] },
                     chat_history := none }) ∧
    (st.conversation = none → clear_chat_history st = (st, false)) := by
  cases h : st.conversation with
  | none => simp [clear_chat_history, h]
  | some conv => simp [clear_chat_history, h]

/-- Claim C7 witness: clearing with a chat object succeeds, clears the memory
and keeps the index; clearing a fresh backend fails and changes nothing. -/
theorem claim_C7_witness :
    (clear_chat_history stConv).2 = true ∧
    (clear_chat_history stConv).1.vectorstore = stConv.vectorstore ∧
    (clear_chat_history stConv).1
      = { stConv with conversation := some { conv0 with memory := [] },
                      chat_history := none } ∧
    clear_chat_history ChatBackend.initial = (ChatBackend.initial, false) :=
  ⟨(claim_C7 stConv).1.mpr rfl, (claim_C7 stConv).2.1,
   (claim_C7 stConv).2.2.1 conv0 rfl, (claim_C7 ChatBackend.initial).2.2.2 rfl⟩

/-- Claim C8: with the connection configuration present, upload_to_azure
reports success for every file mapping and every per-file outcome, and a
missing local file only contributes a warning line to the log. -/
theorem claim_C8 (env : AzureEnv) (w : AzureWorld) (files : List (List Char × List Char))
    (hc : truthyOpt env.conn_string = true) (hn : truthyOpt env.container_name = true) :
    (upload_to_azure env w files).1 = true ∧
    (∀ lf ct, (lf, ct) ∈ files → w.fileExists lf = false →
       (chars "Warning: File not found - " ++ lf) ∈ (upload_to_azure env w files).2) := by
  have hcond : (!truthyOpt env.conn_string || !truthyOpt env.container_name) = false := by
    rw [hc, hn]
    rfl
  constructor
  · unfold upload_to_azure
    rw [hcond]
    simp
  · intro lf ct hm hex
    unfold upload_to_azure
    rw [hcond]
    simp only [Bool.false_eq_true, if_false]
    cases w.createContainer with
    | ok u => exact List.mem_append.mpr (Or.inr (uploadLoop_warn_mem w files lf ct hm hex))
    | error e => exact List.mem_append.mpr (Or.inr (uploadLoop_warn_mem w files lf ct hm hex))

/-- A concrete Azure world: one blob b.txt, a missing local file missing.txt,
and uploads of bad.pdf failing. -/
def wAz : AzureWorld :=
  ⟨.ok (), fun p => decide (p ≠ chars "missing.txt"),
   fun n _ => if n = chars "bad.pdf" then .error (chars "network down") else .ok (),
   chars "/tmp/dl",
   .ok [chars "b.txt"],
   fun _ => .ok ()⟩

/-- The Azure world with a failing blob listing. -/
def wAzListErr : AzureWorld := { wAz with listBlobs := .error (chars "auth failed") }

/-- The Azure world with a failing blob download. -/
def wAzDlErr : AzureWorld := { wAz with downloadBlob := fun _ => .error (chars "disk full") }

/-- Environment with the connection string absent. -/
def envAzMissing : AzureEnv := ⟨none, some (chars "container")⟩

/-- Environment with both Azure storage variables present. -/
def envAz : AzureEnv := ⟨some (chars "conn"), some (chars "container")⟩

/-- Claim C8 witness: a batch with a missing file and a failing upload still
reports success, and the missing file leaves a warning in the log. -/
theorem claim_C8_witness :
    (upload_to_azure envAz wAz
       [(chars "missing.txt", chars "text/plain"), (chars "bad.pdf", chars "application/pdf"),
        (chars "ok.txt", chars "text/plain")]).1 = true ∧
    (chars "Warning: File not found - missing.txt")
      ∈ (upload_to_azure envAz wAz
          [(chars "missing.txt", chars "text/plain"), (chars "bad.pdf", chars "application/pdf"),
           (chars "ok.txt", chars "text/plain")]).2 :=
  ⟨(claim_C8 envAz wAz
      [(chars "missing.txt", chars "text/plain"), (chars "bad.pdf", chars "application/pdf"),
       (chars "ok.txt", chars "text/plain")] rfl rfl).1,
   (claim_C8 envAz wAz
      [(chars "missing.txt", chars "text/plain"), (chars "bad.pdf", chars "application/pdf"),
       (chars "ok.txt", chars "text/plain")] rfl rfl).2
     (chars "missing.txt") (chars "text/plain") (by simp) (by decide)⟩

/-- Claim C9: the two failure modes of download_from_azure have different
shapes — bare None (which a pair-unpacking caller cannot consume) exactly for
missing configuration, the pair (None, []) for a raising listing or download,
and the pair (directory, files) only on the fully successful path. -/
theorem claim_C9 (env : AzureEnv) (w : AzureWorld) :
    ((truthyOpt env.conn_string = false ∨ truthyOpt env.container_name = false) →
       download_from_azure env w = .bareNone ∧
       unpackPair (download_from_azure env w) = none) ∧
    (truthyOpt env.conn_string = true → truthyOpt env.container_name = true →
       (∀ e, w.listBlobs = .error e → download_from_azure env w = .pair none []) ∧
       (∀ blobs e, w.listBlobs = .ok blobs → downloadAll w w.tempDir blobs = .error e →
          download_from_azure env w = .pair none []) ∧
       (∀ blobs fs, w.listBlobs = .ok blobs → downloadAll w w.tempDir blobs = .ok fs →
          download_from_azure env w = .pair (some w.tempDir) fs ∧
          unpackPair (download_from_azure env w) = some (some w.tempDir, fs))) := by
  constructor
  · intro h
    have hcond : (!truthyOpt env.conn_string || !truthyOpt env.container_name) = true := by
      rcases h with h | h <;> rw [h] <;> simp
    unfold download_from_azure
    rw [hcond]
    simp [unpackPair]
  · intro hc hn
    have hcond : (!truthyOpt env.conn_string || !truthyOpt env.container_name) = false := by
      rw [hc, hn]
      rfl
    refine ⟨?_, ?_, ?_⟩
    · intro e hl
      unfold download_from_azure
      rw [hcond, hl]
      simp
    · intro blobs e hl hd
      unfold download_from_azure
      rw [hcond, hl]
      simp only [Bool.false_eq_true, if_false]
      rw [hd]
    · intro blobs fs hl hd
      unfold download_from_azure
      rw [hcond, hl]
      simp only [Bool.false_eq_true, if_false]
      rw [hd]
      simp [unpackPair]

/-- Claim C9 witness: missing configuration yields bare None which fails to
unpack; a raising listing and a raising download yield (None, []); the
successful path yields the directory and the downloaded paths. -/
theorem claim_C9_witness :
    (download_from_azure envAzMissing wAz = .bareNone ∧
     unpackPair (download_from_azure envAzMissing wAz) = none) ∧
    download_from_azure envAz wAzListErr = .pair none [] ∧
    download_from_azure envAz wAzDlErr = .pair none [] ∧
    (download_from_azure envAz wAz
        = .pair (some (chars "/tmp/dl")) [chars "/tmp/dl/b.txt"] ∧
     unpackPair (download_from_azure envAz wAz)
        = some (some (chars "/tmp/dl"), [chars "/tmp/dl/b.txt"])) :=
  ⟨(claim_C9 envAzMissing wAz).1 (Or.inl rfl),
   ((claim_C9 envAz wAzListErr).2 rfl rfl).1 (chars "auth failed") rfl,
   ((claim_C9 envAz wAzDlErr).2 rfl rfl).2.1 [chars "b.txt"] (chars "disk full") rfl rfl,
   ((claim_C9 envAz wAz).2 rfl rfl).2.2 [chars "b.txt"] [chars "/tmp/dl/b.txt"] rfl rfl⟩

/-- Claim C10: for every non-empty input list the 50-dash delimiter guarantees
a non-empty corpus and at least one chunk, so process_files never returns the
empty-corpus failure message; that branch is reachable only for an empty
input list. -/
theorem claim_C10 (st : ChatBackend) (env : EnvVars) (w : World)
    (file_paths : List (List Char)) (hne : file_paths ≠ []) :
    (process_files st env w file_paths).2.2
      ≠ chars "No text content was extracted from the files" := by
  obtain ⟨p0, rest, rfl⟩ : ∃ p0 rest, file_paths = p0 :: rest := by
    cases file_paths with
    | nil => exact absurd rfl hne
    | cons a b => exact ⟨a, b, rfl⟩
  have hdash : '-' ∈ assembleAllText w (p0 :: rest) := by
    simp only [assembleAllText]
    refine List.mem_append.mpr (Or.inl (List.mem_append.mpr (Or.inl
      (List.mem_append.mpr (Or.inr ?_)))))
    simp [rule50, List.mem_replicate]
  have hchunks : split_text defaultSplitCfg '\n' (assembleAllText w (p0 :: rest)) ≠ [] :=
    split_text_ne_nil hdash (by decide) (by decide)
  unfold process_files
  rw [if_neg hchunks]
  cases hv : create_vectorstore w
      (split_text defaultSplitCfg '\n' (assembleAllText w (p0 :: rest))) with
  | none =>
    show chars "Failed to create vector store"
      ≠ chars "No text content was extracted from the files"
    decide
  | some vs =>
    simp only []
    cases hs : setup_conversation_chain env w vs with
    | none =>
      show chars "Failed to set up conversation chain"
        ≠ chars "No text content was extracted from the files"
      decide
    | some conv =>
      show chars "Data processed successfully! Created "
          ++ natChars (split_text defaultSplitCfg '\n' (assembleAllText w (p0 :: rest))).length
          ++ chars " chunks for searching."
        ≠ chars "No text content was extracted from the files"
      intro h
      rw [List.append_assoc] at h
      exact success_msg_ne _ h

/-- Claim C10 witness: a one-file batch does not hit the empty-corpus branch. -/
theorem claim_C10_witness :
    (process_files ChatBackend.initial envAzureOK wOK [chars "a.txt"]).2.2
      ≠ chars "No text content was extracted from the files" :=
  claim_C10 ChatBackend.initial envAzureOK wOK [chars "a.txt"] (by decide)
